import Mathlib

/-
  Verification of the database query router of the Aerostack SDK
  (`src/server.ts`).  The file `server.ts` contains two successive
  versions of the class `AerostackServer`: the first begins at line 52,
  the second at line 848.  Definitions suffixed `V1` embed methods of the
  first version, `V2` those of the second; code shared verbatim by both
  versions is embedded once.
-/

namespace Aerostack

/-- The engine tag used throughout `server.ts`: `'d1'` is the embedded
    (local) engine, `'postgres'` the remote engine. -/
inductive Target where
  | d1
  | postgres
deriving DecidableEq, Repr

/-- JS `String.prototype.toLowerCase()` (character-wise, as the router only
    feeds it ASCII SQL text and ASCII needles). -/
def jsLower (s : String) : String := ⟨s.data.map Char.toLower⟩

/-- Helper for JS `String.prototype.includes`: contiguous-sublist test. -/
def infixOfList : List Char → List Char → Bool
  | [], needle => needle.isEmpty
  | c :: rest, needle => needle.isPrefixOf (c :: rest) || infixOfList rest needle

/-- JS `haystack.includes(needle)`: `needle` occurs as a contiguous
    substring of `haystack` (the empty needle always occurs). -/
def includes (haystack needle : String) : Bool :=
  infixOfList haystack.data needle.data

/-- JS `x || d` for an optional string `x`: `undefined` and the empty
    string are falsy and replaced by the default `d`. -/
def jsOrStr (x : Option String) (d : String) : String :=
  match x with
  | some s => if s = "" then d else s
  | none => d

/-- JS truthiness of an optional string: `undefined` and `""` are falsy. -/
def jsStrTruthy (x : Option String) : Bool :=
  match x with
  | some s => !(s == "")
  | none => false

/-- The database-related members of the `ErrorCode` enum in `server.ts`. -/
inductive ErrorCode where
  | DB_CONNECTION_FAILED
  | DB_QUERY_FAILED
  | DB_TABLE_NOT_FOUND
  | DB_COLUMN_NOT_FOUND
  | DB_AUTH_FAILED
  | DB_MIGRATION_FAILED
  | DB_TRANSACTION_FAILED
deriving DecidableEq, Repr

/-- The `context` record `{ sql, params, target }` that `routeQuery` passes
    to the error translators.  `ν` is the (opaque) type of bind-parameter
    values. -/
structure QueryContext (ν : Type) where
  sql : String
  params : List ν
  target : Target
deriving DecidableEq, Repr

/-- The `DatabaseError` class of `server.ts`: error code, message, the
    optional `details` fields (`suggestion`, `recoveryAction`, `cause`) and
    the optional `context` record. -/
structure DatabaseError (ν : Type) where
  code : ErrorCode
  message : String
  suggestion : Option String
  recoveryAction : Option String
  cause : Option String
  context : Option (QueryContext ν)
deriving DecidableEq, Repr

/-- A raw error thrown by the Postgres driver, as read by
    `DatabaseError.fromPostgresError`: the fields `code`, `message`,
    `table` and `column`, each possibly `undefined`. -/
structure PgRawError where
  code : Option String
  message : Option String
  table : Option String
  column : Option String
deriving DecidableEq, Repr

/-- A raw error thrown by the D1 driver, as read by
    `DatabaseError.fromD1Error`: only its `message` field is consulted. -/
structure D1RawError where
  message : Option String
deriving DecidableEq, Repr

/-- `DatabaseError.fromPostgresError` (`server.ts` lines 2043-2107):
    switch on the Postgres error code; unmatched codes become
    `DB_QUERY_FAILED` with `cause` set to `Postgres error <code>` when a
    code is present, else left undefined. -/
def DatabaseError.fromPostgresError (err : PgRawError)
    (context : Option (QueryContext ν)) : DatabaseError ν :=
  if err.code = some "42P01" then
    { code := .DB_TABLE_NOT_FOUND
      message := "Table does not exist: " ++ jsOrStr err.table "unknown"
      suggestion := some "Run migrations first: aerostack db migrate apply"
      recoveryAction := some "CREATE_TABLE"
      cause := err.message
      context := context }
  else if err.code = some "42703" then
    { code := .DB_COLUMN_NOT_FOUND
      message := "Column does not exist: " ++ jsOrStr err.column "unknown"
      suggestion := some "Check your schema or run latest migrations"
      recoveryAction := some "ALTER_TABLE"
      cause := err.message
      context := context }
  else if err.code = some "28P01" ∨ err.code = some "28000" then
    { code := .DB_AUTH_FAILED
      message := "Database authentication failed"
      suggestion := some "Check your DATABASE_URL environment variable"
      recoveryAction := some "UPDATE_CREDENTIALS"
      cause := err.message
      context := context }
  else if err.code = some "08006" ∨ err.code = some "08003" then
    { code := .DB_CONNECTION_FAILED
      message := "Failed to connect to database"
      suggestion := some "Verify your database connection string and network connectivity"
      recoveryAction := some "CHECK_CONNECTION"
      cause := err.message
      context := context }
  else
    { code := .DB_QUERY_FAILED
      message := jsOrStr err.message "Database query failed"
      suggestion := some "Check your query syntax and parameters"
      recoveryAction := none
      cause := if jsStrTruthy err.code then
                 some ("Postgres error " ++ jsOrStr err.code "")
               else none
      context := context }

/-- `DatabaseError.fromD1Error` (`server.ts` lines 2112-2150): substring
    match on the driver message, `no such table` before `no such column`;
    `cause` always carries the raw (possibly undefined) driver message. -/
def DatabaseError.fromD1Error (err : D1RawError)
    (context : Option (QueryContext ν)) : DatabaseError ν :=
  let message := jsOrStr err.message "D1 query failed"
  if includes message "no such table" then
    { code := .DB_TABLE_NOT_FOUND
      message := message
      suggestion := some "Run D1 migrations: aerostack db migrate apply"
      recoveryAction := some "CREATE_TABLE"
      cause := err.message
      context := context }
  else if includes message "no such column" then
    { code := .DB_COLUMN_NOT_FOUND
      message := message
      suggestion := some "Check your schema or update migrations"
      recoveryAction := some "ALTER_TABLE"
      cause := err.message
      context := context }
  else
    { code := .DB_QUERY_FAILED
      message := message
      suggestion := some "Check your SQL syntax and D1 configuration"
      recoveryAction := none
      cause := err.message
      context := context }

/-- The error thrown when no database connection is available (thrown by
    `routeQuery` and `getSchema` in both versions). -/
def noDatabaseError (ν : Type) : DatabaseError ν :=
  { code := .DB_CONNECTION_FAILED
    message := "No database connection available"
    suggestion := some "Configure DB or Postgres connection in aerostack.toml"
    recoveryAction := none
    cause := none
    context := none }

/-- Result of a successful `pgPool.query(sql, params)`: rows and the
    (possibly null) `rowCount`.  `ρ` is the (opaque) row type. -/
structure PgResult (ρ : Type) where
  rows : List ρ
  rowCount : Option Nat
deriving DecidableEq, Repr

/-- The optional `meta` object of a D1 result. -/
structure D1Meta where
  duration : Option Nat
deriving DecidableEq, Repr

/-- Result of a successful `d1.prepare(sql).bind(params).all()`: the
    (possibly null) `results` array, the driver's own `success` flag and
    the optional `meta`. -/
structure D1Result (ρ : Type) where
  results : Option (List ρ)
  success : Bool
  meta : Option D1Meta
deriving DecidableEq, Repr

/-- The `meta` part of a `DatabaseResponse`: which engine executed the
    query plus the optional `rowCount` / `duration` fields. -/
structure ResponseMeta where
  target : Target
  rowCount : Option Nat
  duration : Option Nat
deriving DecidableEq, Repr

/-- The `DatabaseResponse` shape returned by `routeQuery` / `db.query`. -/
structure DatabaseResponse (ρ : Type) where
  results : List ρ
  success : Bool
  meta : ResponseMeta
deriving DecidableEq, Repr

/-- The state of an `AerostackServer` instance as the router sees it: the
    optional Postgres driver handle (`pgPool`), the optional D1 driver
    handle (`_d1`) — each modelled as the function from a query to the
    driver's outcome — and the immutable routing rules
    (`routingRules.tables`, a table-name-to-target mapping iterated in
    insertion order). -/
structure Server (ρ ν : Type) where
  pg : Option (String → List ν → Except PgRawError (PgResult ρ))
  d1 : Option (String → List ν → Except D1RawError (D1Result ρ))
  rules : List (String × Target)

/-- The complexity keywords of step 3 of `determineTarget` (identical in
    both versions). -/
def complexTriggers : List String :=
  ["join", "group by", "having", "union", "intersect", "except"]

/-- `determineTarget` of the first `AerostackServer` (`server.ts` lines
    681-703).  Reads only `this.routingRules`; its step-4 default is the
    constant `'d1'`. -/
def determineTargetV1 (rules : List (String × Target)) (sql : String) : Target :=
  let normalized := jsLower sql
  if includes normalized "aerostack:target=postgres" then .postgres
  else if includes normalized "aerostack:target=d1" then .d1
  else
    match rules.find? (fun p => includes normalized (jsLower p.1)) with
    | some p => p.2
    | none =>
      if complexTriggers.any (fun trigger => includes normalized trigger) then
        .postgres
      else
        .d1

/-- `determineTarget` of the second `AerostackServer` (`server.ts` lines
    1828-1857).  Identical to `determineTargetV1` except for its step-4
    default: `'postgres'` when `this.pgPool` is set, else `'d1'`. -/
def determineTargetV2 (s : Server ρ ν) (sql : String) : Target :=
  let normalized := jsLower sql
  if includes normalized "aerostack:target=postgres" then .postgres
  else if includes normalized "aerostack:target=d1" then .d1
  else
    match s.rules.find? (fun p => includes normalized (jsLower p.1)) with
    | some p => p.2
    | none =>
      if complexTriggers.any (fun trigger => includes normalized trigger) then
        .postgres
      else
        if s.pg.isSome then .postgres else .d1

/-- The Postgres try-block of `routeQuery`: a successful driver call
    becomes a `success: true` response tagged `postgres` with
    `rowCount: result.rowCount || 0`; a thrown driver error is translated
    by `DatabaseError.fromPostgresError` with the query context. -/
def pgOutcome (pgExec : String → List ν → Except PgRawError (PgResult ρ))
    (sql : String) (params : List ν) :
    Except (DatabaseError ν) (DatabaseResponse ρ) :=
  match pgExec sql params with
  | .ok result =>
    .ok { results := result.rows
          success := true
          meta := { target := .postgres
                    rowCount := some (result.rowCount.getD 0)
                    duration := none } }
  | .error err =>
    .error (DatabaseError.fromPostgresError err
      (some { sql := sql, params := params, target := .postgres }))

/-- The D1 try-block of `routeQuery`: a successful driver call becomes a
    response tagged `d1` carrying the driver's own `success` flag, rows
    `result.results || []` and `duration: result.meta?.duration`; a thrown
    driver error is translated by `DatabaseError.fromD1Error`. -/
def d1Outcome (d1Exec : String → List ν → Except D1RawError (D1Result ρ))
    (sql : String) (params : List ν) :
    Except (DatabaseError ν) (DatabaseResponse ρ) :=
  match d1Exec sql params with
  | .ok result =>
    .ok { results := result.results.getD []
          success := result.success
          meta := { target := .d1
                    rowCount := none
                    duration := result.meta.bind (fun m => m.duration) } }
  | .error err =>
    .error (DatabaseError.fromD1Error err
      (some { sql := sql, params := params, target := .d1 }))

/-- The body of `routeQuery` after target selection (identical in both
    versions, `server.ts` lines 643-679 and 1790-1826): Postgres when the
    target is `postgres` and `pgPool` is set, else D1 when `_d1` is set,
    else throw `DB_CONNECTION_FAILED`. -/
def routeQueryCore (s : Server ρ ν) (target : Target) (sql : String)
    (params : List ν) : Except (DatabaseError ν) (DatabaseResponse ρ) :=
  match target, s.pg with
  | .postgres, some pgExec => pgOutcome pgExec sql params
  | _, _ =>
    match s.d1 with
    | some d1Exec => d1Outcome d1Exec sql params
    | none => .error (noDatabaseError ν)

/-- `routeQuery` of the first `AerostackServer` (`server.ts` lines
    643-679). -/
def routeQueryV1 (s : Server ρ ν) (sql : String) (params : List ν) :
    Except (DatabaseError ν) (DatabaseResponse ρ) :=
  routeQueryCore s (determineTargetV1 s.rules sql) sql params

/-- `routeQuery` of the second `AerostackServer` (`server.ts` lines
    1790-1826). -/
def routeQueryV2 (s : Server ρ ν) (sql : String) (params : List ν) :
    Except (DatabaseError ν) (DatabaseResponse ρ) :=
  routeQueryCore s (determineTargetV2 s sql) sql params

/-- `db.query(sql, params)` of the first version simply forwards to
    `routeQuery`. -/
def queryV1 (s : Server ρ ν) (sql : String) (params : List ν) :
    Except (DatabaseError ν) (DatabaseResponse ρ) :=
  routeQueryV1 s sql params

/-- `db.query(sql, params)` of the second version simply forwards to
    `routeQuery`. -/
def queryV2 (s : Server ρ ν) (sql : String) (params : List ν) :
    Except (DatabaseError ν) (DatabaseResponse ρ) :=
  routeQueryV2 s sql params

/-- One element of the `db.batch` input: SQL text and an optional
    parameter list (the loop reads `queries[i].params || []`). -/
structure BatchQuery (ν : Type) where
  sql : String
  params : Option (List ν)
deriving DecidableEq, Repr

/-- The `BatchResult` shape: one response slot per input query, the
    overall success flag, and the error list — `undefined` when empty. -/
structure BatchResult (ρ ν : Type) where
  results : List (DatabaseResponse ρ)
  success : Bool
  errors : Option (List (Nat × DatabaseError ν))
deriving DecidableEq, Repr

/-- The placeholder response pushed for a failed batch item:
    `{ results: [], success: false, meta: { target: 'd1' } }`. -/
def failedSlot (ρ : Type) : DatabaseResponse ρ :=
  { results := []
    success := false
    meta := { target := .d1, rowCount := none, duration := none } }

/-- The loop of `db.batch`, accumulating responses, indexed errors and the
    running success flag, starting at index `i`. -/
def batchLoop (route : String → List ν → Except (DatabaseError ν) (DatabaseResponse ρ)) :
    Nat → List (BatchQuery ν) →
    List (DatabaseResponse ρ) × List (Nat × DatabaseError ν) × Bool
  | _, [] => ([], [], true)
  | i, q :: rest =>
    let step := route q.sql (q.params.getD [])
    let restOut := batchLoop route (i + 1) rest
    match step with
    | .ok r => (r :: restOut.1, restOut.2.1, restOut.2.2)
    | .error e => (failedSlot ρ :: restOut.1, (i, e) :: restOut.2.1, false)

/-- `db.batch(queries)` of the first version (`server.ts` lines 128-149):
    sequential execution via `routeQuery`, per-item error capture, and
    `errors: errors.length > 0 ? errors : undefined`. -/
def batchV1 (s : Server ρ ν) (queries : List (BatchQuery ν)) : BatchResult ρ ν :=
  let out := batchLoop (routeQueryV1 s) 0 queries
  { results := out.1
    success := out.2.2
    errors := if out.2.1.length > 0 then some out.2.1 else none }

/-- `db.batch(queries)` of the second version (`server.ts` lines
    1004-1026): same body as `batchV1`, but routing through the second
    version's `routeQuery`. -/
def batchV2 (s : Server ρ ν) (queries : List (BatchQuery ν)) : BatchResult ρ ν :=
  let out := batchLoop (routeQueryV2 s) 0 queries
  { results := out.1
    success := out.2.2
    errors := if out.2.1.length > 0 then some out.2.1 else none }

/-- A column of `SchemaInfo` as built by the introspection helpers. -/
structure SchemaColumn where
  name : String
  colType : String
  nullable : Bool
  defaultValue : Option String
  isPrimaryKey : Option Bool
deriving DecidableEq, Repr

/-- A table of `SchemaInfo`. -/
structure SchemaTable where
  name : String
  columns : List SchemaColumn
  database : Target
deriving DecidableEq, Repr

/-- The `SchemaInfo` shape returned by `db.getSchema`. -/
structure SchemaInfo where
  tables : List SchemaTable
  database : Target
deriving DecidableEq, Repr

/-- `db.getSchema(binding?)` of the first version (`server.ts` lines
    95-123).  `introPg` and `introD1` stand for the outcomes of the I/O
    procedures `this.introspectPostgres()` and `this.introspectD1()`.
    Hinted branch: Postgres when `pgPool` is set and the lower-cased hint
    contains `postgres`, else D1 when set, else fall through.  Default
    branch: D1 first, then Postgres, else throw. -/
def getSchemaV1 (s : Server ρ ν)
    (introPg introD1 : Except (DatabaseError ν) SchemaInfo)
    (binding : Option String) : Except (DatabaseError ν) SchemaInfo :=
  let hinted : Option (Except (DatabaseError ν) SchemaInfo) :=
    match binding with
    | some b =>
      if b = "" then none
      else if s.pg.isSome && includes (jsLower b) "postgres" then some introPg
      else if s.d1.isSome then some introD1
      else none
    | none => none
  match hinted with
  | some r => r
  | none =>
    if s.d1.isSome then introD1
    else if s.pg.isSome then introPg
    else .error (noDatabaseError ν)

/-- `db.getSchema(binding?)` of the second version (`server.ts` lines
    968-999).  The hint matches Postgres when it contains `pg` or
    `postgres` (lower-cased); the default branch prefers Postgres, then
    D1, else throws. -/
def getSchemaV2 (s : Server ρ ν)
    (introPg introD1 : Except (DatabaseError ν) SchemaInfo)
    (binding : Option String) : Except (DatabaseError ν) SchemaInfo :=
  let hinted : Option (Except (DatabaseError ν) SchemaInfo) :=
    match binding with
    | some b =>
      if b = "" then none
      else if s.pg.isSome && (includes (jsLower b) "pg" || includes (jsLower b) "postgres") then
        some introPg
      else if s.d1.isSome then some introD1
      else none
    | none => none
  match hinted with
  | some r => r
  | none =>
    if s.pg.isSome then introPg
    else if s.d1.isSome then introD1
    else .error (noDatabaseError ν)


/-- Concrete Postgres driver that always succeeds with no rows. -/
def pgOkDriver : String → List Nat → Except PgRawError (PgResult Nat) :=
  fun _ _ => .ok { rows := [], rowCount := some 2 }

/-- Concrete Postgres driver that always throws a generic error. -/
def pgFailDriver : String → List Nat → Except PgRawError (PgResult Nat) :=
  fun _ _ => .error { code := none, message := some "boom", table := none, column := none }

/-- Concrete D1 driver that always succeeds. -/
def d1OkDriver : String → List Nat → Except D1RawError (D1Result Nat) :=
  fun _ _ => .ok { results := some [], success := true, meta := none }

/-- Concrete D1 driver that returns a result with `success: false` without throwing. -/
def d1FalseDriver : String → List Nat → Except D1RawError (D1Result Nat) :=
  fun _ _ => .ok { results := some [], success := false, meta := none }

/-- Server with no drivers and no rules. -/
def sEmpty : Server Nat Nat := { pg := none, d1 := none, rules := [] }

/-- Server with both drivers configured and no rules. -/
def sBothOk : Server Nat Nat := { pg := some pgOkDriver, d1 := some d1OkDriver, rules := [] }

/-- Server with only a failing Postgres driver. -/
def sPgFail : Server Nat Nat := { pg := some pgFailDriver, d1 := none, rules := [] }

/-- Server with only a D1 driver that reports `success: false`. -/
def sBadD1 : Server Nat Nat := { pg := none, d1 := some d1FalseDriver, rules := [] }

/-- Server with only a succeeding Postgres driver. -/
def sPgOk : Server Nat Nat := { pg := some pgOkDriver, d1 := none, rules := [] }

/-- Server with a single routing rule, no drivers. -/
def sRulesC1 : Server Nat Nat := { pg := none, d1 := none, rules := [("users", .d1)] }

/-- Server with three routing rules, no drivers. -/
def sRulesC2 : Server Nat Nat :=
  { pg := none, d1 := none
    rules := [("accounts", .postgres), ("users", .d1), ("users", .postgres)] }

/-- The response slot the batch loop stores for one routed query: the
    response itself on success, the zeroed `d1`-tagged placeholder on a
    thrown error. -/
def slotOf (out : Except (DatabaseError ν) (DatabaseResponse ρ)) :
    DatabaseResponse ρ :=
  match out with
  | .ok r => r
  | .error _ => failedSlot ρ

/-- The error-list entry the batch loop records for the routed query at
    index `i`: nothing on success, `(i, error)` on a thrown error. -/
def errOf? (i : Nat) (out : Except (DatabaseError ν) (DatabaseResponse ρ)) :
    Option (Nat × DatabaseError ν) :=
  match out with
  | .ok _ => none
  | .error e => some (i, e)

/-- The response `routeQuery` builds from a successful `pgOkDriver` call. -/
def okPgResponse : DatabaseResponse Nat :=
  { results := []
    success := true
    meta := { target := .postgres, rowCount := some 2, duration := none } }

/-- A Postgres-side schema snapshot used in concrete instances. -/
def pgSchemaInfo : SchemaInfo := { tables := [], database := .postgres }

/-- A D1-side schema snapshot used in concrete instances. -/
def d1SchemaInfo : SchemaInfo := { tables := [], database := .d1 }

/-- `find?` returns the first element satisfying the predicate. -/
theorem find?_first (p : α → Bool) (pre : List α) (x : α) (post : List α)
    (hpre : ∀ y ∈ pre, p y = false) (hx : p x = true) :
    (pre ++ x :: post).find? p = some x := by
  induction pre with
  | nil => simp [List.find?_cons, hx]
  | cons a t ih =>
    have ha := hpre a (by simp)
    simp only [List.cons_append, List.find?_cons, ha]
    exact ih (fun y hy => hpre y (by simp [hy]))

/-- C1: a SQL text containing the remote-forcing directive
    `aerostack:target=postgres` (case-insensitively) routes to `postgres`
    in both versions of `determineTarget`, regardless of routing rules and
    complexity keywords; a text containing the local directive
    `aerostack:target=d1` and not the remote one routes to `d1`; the
    directive checks come before every other rule. -/
theorem determineTarget_directive_override (s : Server ρ ν) (sql : String) :
    (includes (jsLower sql) "aerostack:target=postgres" = true →
      determineTargetV1 s.rules sql = Target.postgres ∧
      determineTargetV2 s sql = Target.postgres) ∧
    (includes (jsLower sql) "aerostack:target=d1" = true →
      includes (jsLower sql) "aerostack:target=postgres" = false →
      determineTargetV1 s.rules sql = Target.d1 ∧
      determineTargetV2 s sql = Target.d1) := by
  constructor
  · intro h
    constructor <;> simp [determineTargetV1, determineTargetV2, h]
  · intro h1 h2
    constructor <;> simp [determineTargetV1, determineTargetV2, h1, h2]

/-- Witness for C1: the remote directive wins over a matching rule and a
    complexity keyword. -/
theorem determineTarget_directive_override_witness :
    determineTargetV1 sRulesC1.rules
        "/* AEROSTACK:TARGET=POSTGRES */ select * from users join x" = Target.postgres ∧
    determineTargetV2 sRulesC1
        "/* AEROSTACK:TARGET=POSTGRES */ select * from users join x" = Target.postgres :=
  (determineTarget_directive_override sRulesC1
    "/* AEROSTACK:TARGET=POSTGRES */ select * from users join x").1 (by decide)

/-- C2: with no directive present, the first routing rule (in insertion
    order) whose table name occurs case-insensitively in the SQL text
    decides the target, in both versions, even when a complexity keyword
    is also present. -/
theorem determineTarget_routing_rules (s : Server ρ ν) (sql tbl : String)
    (tgt : Target) (pre post : List (String × Target))
    (hrules : s.rules = pre ++ (tbl, tgt) :: post)
    (hnoPg : includes (jsLower sql) "aerostack:target=postgres" = false)
    (hnoD1 : includes (jsLower sql) "aerostack:target=d1" = false)
    (hmatch : includes (jsLower sql) (jsLower tbl) = true)
    (hpre : ∀ p ∈ pre, includes (jsLower sql) (jsLower p.1) = false) :
    determineTargetV1 s.rules sql = tgt ∧ determineTargetV2 s sql = tgt := by
  have hfind : (pre ++ (tbl, tgt) :: post).find?
      (fun p => includes (jsLower sql) (jsLower p.1)) = some (tbl, tgt) :=
    find?_first _ pre _ post hpre hmatch
  constructor <;>
    simp [determineTargetV1, determineTargetV2, hrules, hnoPg, hnoD1, hfind]

/-- Witness for C2: the rule `users → d1` (second in insertion order, first
    matching) decides the target although `union` is present. -/
theorem determineTarget_routing_rules_witness :
    determineTargetV1 sRulesC2.rules "select * from USERS union x" = Target.d1 ∧
    determineTargetV2 sRulesC2 "select * from USERS union x" = Target.d1 :=
  determineTarget_routing_rules sRulesC2 "select * from USERS union x" "users"
    Target.d1 [("accounts", Target.postgres)] [("users", Target.postgres)]
    rfl (by decide) (by decide) (by decide) (by decide)

/-- Counterexample for C3: the first version's `determineTarget` hardcodes
    its step-4 default to `d1`; on a server with a remote (Postgres)
    connection configured it still returns `d1` for plain SQL, so the
    default is neither configurable nor `remote when a remote connection
    is configured`. -/
theorem determineTarget_default_counterexample :
    sBothOk.pg.isSome = true ∧
    determineTargetV1 sBothOk.rules "select 1" = Target.d1 ∧
    determineTargetV1 sBothOk.rules "select 1" ≠ Target.postgres :=
  ⟨rfl, by decide, by decide⟩

/-- C3 amended: with no directive and no matching rule, a complexity
    keyword routes to `postgres` in both versions; otherwise the default
    is hardcoded, not configurable: version 1 always returns `d1`, and
    version 2 returns `postgres` exactly when a Postgres pool is
    configured, else `d1`. -/
theorem determineTarget_complexity_and_default (s : Server ρ ν) (sql : String)
    (hnoPg : includes (jsLower sql) "aerostack:target=postgres" = false)
    (hnoD1 : includes (jsLower sql) "aerostack:target=d1" = false)
    (hnoRule : ∀ p ∈ s.rules, includes (jsLower sql) (jsLower p.1) = false) :
    (complexTriggers.any (fun t => includes (jsLower sql) t) = true →
      determineTargetV1 s.rules sql = Target.postgres ∧
      determineTargetV2 s sql = Target.postgres) ∧
    (complexTriggers.any (fun t => includes (jsLower sql) t) = false →
      determineTargetV1 s.rules sql = Target.d1 ∧
      determineTargetV2 s sql = (if s.pg.isSome then Target.postgres else Target.d1)) := by
  have hfind : s.rules.find? (fun p => includes (jsLower sql) (jsLower p.1)) = none := by
    rw [List.find?_eq_none]
    intro x hx
    simp [hnoRule x hx]
  constructor <;> intro h <;> constructor <;>
    simp [determineTargetV1, determineTargetV2, hnoPg, hnoD1, hfind, h]

/-- Witness for the amended C3 at a plain query on a driverless server. -/
theorem determineTarget_complexity_and_default_witness :
    determineTargetV1 sEmpty.rules "select 1" = Target.d1 ∧
    determineTargetV2 sEmpty "select 1" =
      (if sEmpty.pg.isSome then Target.postgres else Target.d1) :=
  (determineTarget_complexity_and_default sEmpty "select 1"
    (by decide) (by decide) (by simp [sEmpty])).2 (by decide)


/-- In every branch of `fromPostgresError` the `context` field is the one
    passed in. -/
theorem fromPostgresError_context (err : PgRawError)
    (ctx : Option (QueryContext ν)) :
    (DatabaseError.fromPostgresError err ctx).context = ctx := by
  unfold DatabaseError.fromPostgresError
  split_ifs <;> rfl

/-- In every branch of `fromD1Error` the `context` field is the one passed
    in. -/
theorem fromD1Error_context (err : D1RawError)
    (ctx : Option (QueryContext ν)) :
    (DatabaseError.fromD1Error err ctx).context = ctx := by
  simp only [DatabaseError.fromD1Error]
  split_ifs <;> rfl

/-- The Postgres branch of `routeQuery` never produces the
    `No database connection available` error: its translated errors always
    carry a query context. -/
theorem pgOutcome_ne_noDatabaseError
    (pgExec : String → List ν → Except PgRawError (PgResult ρ))
    (sql : String) (params : List ν) :
    pgOutcome pgExec sql params ≠ .error (noDatabaseError ν) := by
  unfold pgOutcome
  cases h : pgExec sql params with
  | ok r => simp
  | error e =>
    intro hcontra
    have hctx := congrArg DatabaseError.context (Except.error.inj hcontra)
    rw [fromPostgresError_context] at hctx
    simp [noDatabaseError] at hctx

/-- The D1 branch of `routeQuery` never produces the
    `No database connection available` error. -/
theorem d1Outcome_ne_noDatabaseError
    (d1Exec : String → List ν → Except D1RawError (D1Result ρ))
    (sql : String) (params : List ν) :
    d1Outcome d1Exec sql params ≠ .error (noDatabaseError ν) := by
  unfold d1Outcome
  cases h : d1Exec sql params with
  | ok r => simp
  | error e =>
    intro hcontra
    have hctx := congrArg DatabaseError.context (Except.error.inj hcontra)
    rw [fromD1Error_context] at hctx
    simp [noDatabaseError] at hctx

/-- C4: `routeQuery` executes on the Postgres driver exactly when the
    resolved target is `postgres` and a pool is configured (a Postgres
    failure is translated and rethrown, never retried on D1); otherwise it
    executes on the D1 driver when one is configured (even for a
    `postgres` target with no pool, and a `d1` target never uses the
    pool); and it fails with the `DB_CONNECTION_FAILED`
    `No database connection available` error exactly when D1 is absent and
    it is not the case that the target is `postgres` with a configured
    pool. -/
theorem routeQuery_driver_selection (s : Server ρ ν) (sql : String)
    (params : List ν) :
    (∀ pgExec, s.pg = some pgExec →
      determineTargetV1 s.rules sql = Target.postgres →
      routeQueryV1 s sql params = pgOutcome pgExec sql params) ∧
    (∀ d1Exec, s.d1 = some d1Exec →
      ¬(determineTargetV1 s.rules sql = Target.postgres ∧ s.pg.isSome = true) →
      routeQueryV1 s sql params = d1Outcome d1Exec sql params) ∧
    (routeQueryV1 s sql params = .error (noDatabaseError ν) ↔
      (s.d1 = none ∧
        ¬(determineTargetV1 s.rules sql = Target.postgres ∧ s.pg.isSome = true))) := by
  refine ⟨?_, ?_, ?_⟩
  · intro pgExec hpg htgt
    simp [routeQueryV1, routeQueryCore, htgt, hpg]
  · intro d1Exec hd1 hnot
    cases htgt : determineTargetV1 s.rules sql with
    | d1 =>
      cases hpg : s.pg <;> simp [routeQueryV1, routeQueryCore, htgt, hpg, hd1]
    | postgres =>
      cases hpg : s.pg with
      | none => simp [routeQueryV1, routeQueryCore, htgt, hpg, hd1]
      | some pgExec => exact absurd ⟨htgt, by simp [hpg]⟩ hnot
  · constructor
    · intro h
      cases htgt : determineTargetV1 s.rules sql <;>
        cases hpg : s.pg <;> cases hd1 : s.d1 <;>
        simp only [routeQueryV1, routeQueryCore, htgt, hpg, hd1] at h ⊢
      all_goals first
        | exact absurd h (d1Outcome_ne_noDatabaseError _ _ _)
        | exact absurd h (pgOutcome_ne_noDatabaseError _ _ _)
        | simp [htgt, hpg, hd1]
    · rintro ⟨hd1, hnot⟩
      cases htgt : determineTargetV1 s.rules sql with
      | d1 =>
        cases hpg : s.pg <;> simp [routeQueryV1, routeQueryCore, htgt, hpg, hd1]
      | postgres =>
        cases hpg : s.pg with
        | none => simp [routeQueryV1, routeQueryCore, htgt, hpg, hd1]
        | some pgExec => exact absurd ⟨htgt, by simp [hpg]⟩ hnot

/-- Witness for C4: a `join` query on a Postgres-only server executes on
    the Postgres driver. -/
theorem routeQuery_driver_selection_witness :
    routeQueryV1 sPgOk "select a join b" ([] : List Nat) =
      pgOutcome pgOkDriver "select a join b" [] :=
  (routeQuery_driver_selection sPgOk "select a join b" []).1 pgOkDriver rfl (by decide)



/-- `errors.length > 0 ? errors : undefined`, read back with default
    `[]`, is the identity. -/
theorem ternary_errors_getD (l : List α) :
    (if l.length > 0 then some l else none : Option (List α)).getD [] = l := by
  cases l <;> simp

/-- `errors.length > 0 ? errors : undefined` is `undefined` exactly when
    the error list is empty. -/
theorem ternary_errors_none_iff (l : List α) :
    ((if l.length > 0 then some l else none : Option (List α)) = none ↔ l = []) := by
  cases l <;> simp

/-- `errors.length > 0 ? errors : undefined` never carries an empty
    list. -/
theorem ternary_errors_some_ne_nil (l x : List α)
    (h : (if l.length > 0 then some l else none : Option (List α)) = some x) :
    x ≠ [] := by
  cases l with
  | nil => simp at h
  | cons a t =>
    simp at h
    rw [← h]
    simp

/-- Closed form of the batch loop: responses are the per-query outcomes in
    input order, errors are the indexed failures in input order, and the
    success flag is the conjunction of the per-query outcomes. -/
theorem batchLoop_spec
    (route : String → List ν → Except (DatabaseError ν) (DatabaseResponse ρ))
    (i : Nat) (qs : List (BatchQuery ν)) :
    batchLoop route i qs =
      (qs.map (fun q => slotOf (route q.sql (q.params.getD []))),
       (qs.enumFrom i).filterMap
         (fun iq => errOf? iq.1 (route iq.2.sql (iq.2.params.getD []))),
       qs.all (fun q => (route q.sql (q.params.getD [])).isOk)) := by
  induction qs generalizing i with
  | nil => rfl
  | cons q rest ih =>
    simp only [batchLoop, ih, List.map_cons, List.enumFrom, List.filterMap_cons,
      List.all_cons]
    cases h : route q.sql (q.params.getD []) <;>
      simp [slotOf, errOf?, h, Except.isOk, Except.toBool]

/-- The error list accumulated by the batch loop is empty exactly when all
    queries route successfully, which is also exactly when the loop's
    success flag is `true`. -/
theorem batchLoop_allOk
    (route : String → List ν → Except (DatabaseError ν) (DatabaseResponse ρ))
    (i : Nat) (qs : List (BatchQuery ν)) :
    ((batchLoop route i qs).2.1 = [] ↔
      ∀ q ∈ qs, (route q.sql (q.params.getD [])).isOk = true) ∧
    ((batchLoop route i qs).2.2 = true ↔
      ∀ q ∈ qs, (route q.sql (q.params.getD [])).isOk = true) := by
  induction qs generalizing i with
  | nil => simp [batchLoop]
  | cons q rest ih =>
    simp only [batchLoop]
    cases h : route q.sql (q.params.getD []) <;>
      simp [h, Except.isOk, Except.toBool, ih (i + 1)]

/-- Counterexample for C5: with no driver configured at all, `batch` does
    not raise; it returns a normal `BatchResult` recording the
    `DB_CONNECTION_FAILED` error in the per-item error list. -/
theorem batch_no_driver_counterexample :
    batchV1 sEmpty [{ sql := "select 1", params := none }] =
      { results := [failedSlot Nat]
        success := false
        errors := some [(0, noDatabaseError Nat)] } := rfl

/-- C5 amended: `batch` returns one slot per input query in input order,
    where each slot is that query's own routed outcome (so one query's
    failure never affects another query's slot); the error list holds
    exactly one indexed entry per failed query, in input order; the
    overall success flag is the conjunction of the per-item outcomes; and
    `batch` never raises — even a total absence of drivers is recorded per
    item rather than rethrown. -/
theorem batch_sequential_spec (s : Server ρ ν) (queries : List (BatchQuery ν)) :
    (batchV1 s queries).results =
      queries.map (fun q => slotOf (routeQueryV1 s q.sql (q.params.getD []))) ∧
    (batchV1 s queries).success =
      queries.all (fun q => (routeQueryV1 s q.sql (q.params.getD [])).isOk) ∧
    (batchV1 s queries).errors.getD [] =
      queries.enum.filterMap
        (fun iq => errOf? iq.1 (routeQueryV1 s iq.2.sql (iq.2.params.getD []))) := by
  refine ⟨?_, ?_, ?_⟩ <;> simp only [batchV1, batchLoop_spec]
  exact ternary_errors_getD _


/-- Counterexample for C6: a failing `join` query resolves to target
    `postgres`, yet its failed batch slot is tagged `d1`, not the engine
    `determineTarget` resolved. -/
theorem batch_failed_slot_target_counterexample :
    determineTargetV1 sPgFail.rules "select * from a join b" = Target.postgres ∧
    (batchV1 sPgFail [{ sql := "select * from a join b", params := none }]).results.map
      (fun r => r.meta.target) = [Target.d1] :=
  ⟨by decide, rfl⟩

/-- C6 amended: in both versions, the result slot of a failed batch item
    is always the constant placeholder — empty results, `success = false`
    and `meta.target = d1` — regardless of the engine `determineTarget`
    resolved for that query. -/
theorem batch_failed_slot (s : Server ρ ν) (queries : List (BatchQuery ν))
    (i : Nat) (q : BatchQuery ν) (hq : queries[i]? = some q) :
    (∀ e, routeQueryV1 s q.sql (q.params.getD []) = .error e →
      (batchV1 s queries).results[i]? = some (failedSlot ρ)) ∧
    (∀ e, routeQueryV2 s q.sql (q.params.getD []) = .error e →
      (batchV2 s queries).results[i]? = some (failedSlot ρ)) ∧
    (failedSlot ρ).results = [] ∧
    (failedSlot ρ).success = false ∧
    (failedSlot ρ).meta.target = Target.d1 := by
  refine ⟨?_, ?_, rfl, rfl, rfl⟩
  · intro e he
    have hres : (batchV1 s queries).results =
        queries.map (fun q => slotOf (routeQueryV1 s q.sql (q.params.getD []))) := by
      simp only [batchV1, batchLoop_spec]
    rw [hres, List.getElem?_map, hq]
    simp [slotOf, he]
  · intro e he
    have hres : (batchV2 s queries).results =
        queries.map (fun q => slotOf (routeQueryV2 s q.sql (q.params.getD []))) := by
      simp only [batchV2, batchLoop_spec]
    rw [hres, List.getElem?_map, hq]
    simp [slotOf, he]

/-- Witness for the amended C6 on a driverless server. -/
theorem batch_failed_slot_witness :
    (batchV1 sEmpty [{ sql := "select 1", params := none }]).results[0]? =
      some (failedSlot Nat) :=
  (batch_failed_slot sEmpty [{ sql := "select 1", params := none }] 0
    { sql := "select 1", params := none } rfl).1 (noDatabaseError Nat) rfl

/-- C10: in both versions of `batch`, the `errors` field is absent
    (`undefined`), never an empty list, exactly when every item succeeded
    — including for the empty input — and the overall success flag is
    `true` exactly in the same case. -/
theorem batch_errors_field (s : Server ρ ν) (queries : List (BatchQuery ν)) :
    ((batchV1 s queries).errors = none ↔
      ∀ q ∈ queries, (routeQueryV1 s q.sql (q.params.getD [])).isOk = true) ∧
    ((batchV1 s queries).success = true ↔
      ∀ q ∈ queries, (routeQueryV1 s q.sql (q.params.getD [])).isOk = true) ∧
    ((batchV2 s queries).errors = none ↔
      ∀ q ∈ queries, (routeQueryV2 s q.sql (q.params.getD [])).isOk = true) ∧
    ((batchV2 s queries).success = true ↔
      ∀ q ∈ queries, (routeQueryV2 s q.sql (q.params.getD [])).isOk = true) ∧
    (∀ l, (batchV1 s queries).errors = some l → l ≠ []) ∧
    (∀ l, (batchV2 s queries).errors = some l → l ≠ []) ∧
    (batchV1 s ([] : List (BatchQuery ν))).errors = none ∧
    (batchV1 s ([] : List (BatchQuery ν))).success = true := by
  have h1 := batchLoop_allOk (routeQueryV1 s) 0 queries
  have h2 := batchLoop_allOk (routeQueryV2 s) 0 queries
  refine ⟨?_, ?_, ?_, ?_, ?_, ?_, rfl, rfl⟩
  · simp only [batchV1]
    rw [ternary_errors_none_iff]
    exact h1.1
  · rw [← h1.2]
    simp only [batchV1]
  · simp only [batchV2]
    rw [ternary_errors_none_iff]
    exact h2.1
  · rw [← h2.2]
    simp only [batchV2]
  · intro l hl
    simp only [batchV1] at hl
    exact ternary_errors_some_ne_nil _ _ hl
  · intro l hl
    simp only [batchV2] at hl
    exact ternary_errors_some_ne_nil _ _ hl

/-- Witness for C10: the empty batch has an absent `errors` field. -/
theorem batch_errors_field_witness :
    (batchV1 sEmpty ([] : List (BatchQuery Nat))).errors = none :=
  (batch_errors_field sEmpty ([] : List (BatchQuery Nat))).1.mpr (by simp)


/-- Counterexample for C7: when the D1 driver returns a result object with
    `success: false` without throwing, `db.query` hands the caller a
    non-thrown `DatabaseResponse` with `success = false`, so success-false
    responses and thrown errors are not mutually exclusive outcomes. -/
theorem query_returns_success_false_counterexample :
    queryV1 sBadD1 "select 1" ([] : List Nat) =
      .ok { results := ([] : List Nat), success := false
            meta := { target := Target.d1, rowCount := none, duration := none } } ∧
    ¬(∀ r : DatabaseResponse Nat,
        queryV1 sBadD1 "select 1" [] = .ok r → r.success = true) :=
  ⟨rfl, fun h => absurd (h _ rfl) (by decide)⟩

/-- C7 amended: `query` itself never fabricates `success = false`: a
    response returned from the Postgres path always has `success = true`,
    and a returned response with `success = false` can arise only on the
    D1 path by copying a `success: false` flag out of a non-throwing D1
    driver result. -/
theorem query_success_flag (s : Server ρ ν) (sql : String) (params : List ν)
    (r : DatabaseResponse ρ) (h : queryV1 s sql params = .ok r) :
    (r.meta.target = Target.postgres → r.success = true) ∧
    (r.success = false →
      ∃ d1Exec result, s.d1 = some d1Exec ∧ d1Exec sql params = .ok result ∧
        result.success = false ∧ r.meta.target = Target.d1) := by
  simp only [queryV1, routeQueryV1, routeQueryCore] at h
  cases htgt : determineTargetV1 s.rules sql <;> rw [htgt] at h
  case postgres =>
    cases hpg : s.pg with
    | some pgExec =>
      rw [hpg] at h
      simp only [pgOutcome] at h
      cases hrun : pgExec sql params <;> rw [hrun] at h <;> simp at h
      rw [← h]
      constructor
      · intro _; rfl
      · intro hfalse; simp at hfalse
    | none =>
      rw [hpg] at h
      cases hd1 : s.d1 with
      | some d1Exec =>
        rw [hd1] at h
        simp only [d1Outcome] at h
        cases hrun : d1Exec sql params <;> rw [hrun] at h <;> simp at h
        rw [← h]
        constructor
        · intro habs; simp at habs
        · intro hfalse
          exact ⟨d1Exec, _, rfl, hrun, hfalse, rfl⟩
      | none => rw [hd1] at h; simp at h
  case d1 =>
    cases hd1 : s.d1 with
    | some d1Exec =>
      rw [hd1] at h
      simp only [d1Outcome] at h
      cases hrun : d1Exec sql params <;> rw [hrun] at h <;> simp at h
      rw [← h]
      constructor
      · intro habs; simp at habs
      · intro hfalse
        exact ⟨d1Exec, _, rfl, hrun, hfalse, rfl⟩
    | none => rw [hd1] at h; simp at h
  



/-- Witness for the amended C7 on a Postgres-routed query. -/
theorem query_success_flag_witness :
    (okPgResponse.meta.target = Target.postgres → okPgResponse.success = true) ∧
    (okPgResponse.success = false →
      ∃ d1Exec result, sPgOk.d1 = some d1Exec ∧
        d1Exec "select a join b" [] = .ok result ∧
        result.success = false ∧ okPgResponse.meta.target = Target.d1) :=
  query_success_flag sPgOk "select a join b" [] okPgResponse rfl

/-- Counterexample for C8: for a remote-engine error with an unmatched
    code the translated error's `cause` holds only `Postgres error <code>`
    — and is absent entirely when no code is present — so the original
    driver error text `boom` is not preserved in `cause` (it survives only
    as the message). -/
theorem pg_unmatched_cause_counterexample :
    (DatabaseError.fromPostgresError (ν := Nat)
        { code := some "XX000", message := some "boom", table := none, column := none }
        none).cause = some "Postgres error XX000" ∧
    (DatabaseError.fromPostgresError (ν := Nat)
        { code := none, message := some "boom", table := none, column := none }
        none).cause = none ∧
    (DatabaseError.fromPostgresError (ν := Nat)
        { code := some "XX000", message := some "boom", table := none, column := none }
        none).message = "boom" :=
  ⟨by decide, by decide, by decide⟩

/-- C8 amended: driver errors are translated to taxonomy errors, never
    surfaced raw.  D1 messages containing `no such table` map to
    `DB_TABLE_NOT_FOUND` keeping the original message (hence the table
    name) and preserving the raw message in `cause`; otherwise
    `no such column` maps likewise to `DB_COLUMN_NOT_FOUND`; any other D1
    error becomes `DB_QUERY_FAILED` with message and `cause` preserved.
    Postgres codes `42P01`, `42703`, `28P01`/`28000`, `08006`/`08003` map
    to table-not-found, column-not-found, auth-failed and
    connection-failed, each preserving the raw message in `cause`; every
    unmatched Postgres error becomes `DB_QUERY_FAILED` with the original
    message preserved as the message, but its `cause` holds only
    `Postgres error <code>` when a code is present and is absent
    otherwise. -/
theorem error_translation_spec (e : PgRawError) (d : D1RawError)
    (ctx : Option (QueryContext ν)) :
    (includes (jsOrStr d.message "D1 query failed") "no such table" = true →
      (DatabaseError.fromD1Error (ν := ν) d ctx).code = ErrorCode.DB_TABLE_NOT_FOUND ∧
      (DatabaseError.fromD1Error (ν := ν) d ctx).message =
        jsOrStr d.message "D1 query failed" ∧
      (DatabaseError.fromD1Error (ν := ν) d ctx).cause = d.message) ∧
    (includes (jsOrStr d.message "D1 query failed") "no such table" = false →
      includes (jsOrStr d.message "D1 query failed") "no such column" = true →
      (DatabaseError.fromD1Error (ν := ν) d ctx).code = ErrorCode.DB_COLUMN_NOT_FOUND ∧
      (DatabaseError.fromD1Error (ν := ν) d ctx).cause = d.message) ∧
    (includes (jsOrStr d.message "D1 query failed") "no such table" = false →
      includes (jsOrStr d.message "D1 query failed") "no such column" = false →
      (DatabaseError.fromD1Error (ν := ν) d ctx).code = ErrorCode.DB_QUERY_FAILED ∧
      (DatabaseError.fromD1Error (ν := ν) d ctx).message =
        jsOrStr d.message "D1 query failed" ∧
      (DatabaseError.fromD1Error (ν := ν) d ctx).cause = d.message) ∧
    (e.code = some "42P01" →
      (DatabaseError.fromPostgresError (ν := ν) e ctx).code = ErrorCode.DB_TABLE_NOT_FOUND ∧
      (DatabaseError.fromPostgresError (ν := ν) e ctx).message =
        "Table does not exist: " ++ jsOrStr e.table "unknown" ∧
      (DatabaseError.fromPostgresError (ν := ν) e ctx).cause = e.message) ∧
    (e.code = some "42703" →
      (DatabaseError.fromPostgresError (ν := ν) e ctx).code = ErrorCode.DB_COLUMN_NOT_FOUND ∧
      (DatabaseError.fromPostgresError (ν := ν) e ctx).cause = e.message) ∧
    (e.code = some "28P01" ∨ e.code = some "28000" →
      (DatabaseError.fromPostgresError (ν := ν) e ctx).code = ErrorCode.DB_AUTH_FAILED ∧
      (DatabaseError.fromPostgresError (ν := ν) e ctx).cause = e.message) ∧
    (e.code = some "08006" ∨ e.code = some "08003" →
      (DatabaseError.fromPostgresError (ν := ν) e ctx).code = ErrorCode.DB_CONNECTION_FAILED ∧
      (DatabaseError.fromPostgresError (ν := ν) e ctx).cause = e.message) ∧
    (e.code ≠ some "42P01" → e.code ≠ some "42703" → e.code ≠ some "28P01" →
      e.code ≠ some "28000" → e.code ≠ some "08006" → e.code ≠ some "08003" →
      (DatabaseError.fromPostgresError (ν := ν) e ctx).code = ErrorCode.DB_QUERY_FAILED ∧
      (DatabaseError.fromPostgresError (ν := ν) e ctx).message =
        jsOrStr e.message "Database query failed" ∧
      (DatabaseError.fromPostgresError (ν := ν) e ctx).cause =
        (if jsStrTruthy e.code then some ("Postgres error " ++ jsOrStr e.code "")
         else none)) := by
  refine ⟨?_, ?_, ?_, ?_, ?_, ?_, ?_, ?_⟩
  · intro h
    simp only [DatabaseError.fromD1Error, h]
    exact ⟨rfl, rfl, rfl⟩
  · intro h1 h2
    simp only [DatabaseError.fromD1Error, h1, h2]
    simp
  · intro h1 h2
    simp only [DatabaseError.fromD1Error, h1, h2]
    simp
  · intro h
    simp only [DatabaseError.fromPostgresError, h]
    simp
  · intro h
    simp [DatabaseError.fromPostgresError, h]
  · rintro (h | h) <;> simp [DatabaseError.fromPostgresError, h]
  · rintro (h | h) <;> simp [DatabaseError.fromPostgresError, h]
  · intro h1 h2 h3 h4 h5 h6
    simp [DatabaseError.fromPostgresError, h1, h2, h3, h4, h5, h6]

/-- Witness for the amended C8 at the driver error
    `no such table: widgets`. -/
theorem error_translation_spec_witness :
    (DatabaseError.fromD1Error (ν := Nat)
        { message := some "no such table: widgets" } none).code =
      ErrorCode.DB_TABLE_NOT_FOUND ∧
    (DatabaseError.fromD1Error (ν := Nat)
        { message := some "no such table: widgets" } none).message =
      jsOrStr (some "no such table: widgets") "D1 query failed" ∧
    (DatabaseError.fromD1Error (ν := Nat)
        { message := some "no such table: widgets" } none).cause =
      some "no such table: widgets" :=
  (error_translation_spec
    { code := none, message := none, table := none, column := none }
    { message := some "no such table: widgets" } none).1 (by decide)



/-- Counterexample for C9: on a server with both engines configured and no
    binding hint, the first version's `getSchema` introspects the embedded
    engine (D1), not the remote one, so the default preference is neither
    configurable nor remote-first. -/
theorem getSchema_default_counterexample :
    sBothOk.pg.isSome = true ∧
    getSchemaV1 sBothOk (.ok pgSchemaInfo) (.ok d1SchemaInfo) none = .ok d1SchemaInfo ∧
    (.ok d1SchemaInfo : Except (DatabaseError Nat) SchemaInfo) ≠ .ok pgSchemaInfo :=
  ⟨rfl, rfl, fun h => by
    have hinj := Except.ok.inj h
    simp [d1SchemaInfo, pgSchemaInfo] at hinj⟩

/-- C9 amended: a non-empty binding hint whose lower-cased text contains
    `postgres` (version 1) or `pg`/`postgres` (version 2) selects Postgres
    introspection when a pool is configured; a non-empty hint otherwise
    falls back to D1 when configured.  With no hint the preference is
    hardcoded, not configurable: version 1 introspects D1 first and
    Postgres only as fallback, version 2 Postgres first and D1 as
    fallback.  With neither engine configured both versions fail with the
    `DB_CONNECTION_FAILED` error. -/
theorem getSchema_selection (s : Server ρ ν)
    (introPg introD1 : Except (DatabaseError ν) SchemaInfo) (b : String) :
    (b ≠ "" → s.pg.isSome = true → includes (jsLower b) "postgres" = true →
      getSchemaV1 s introPg introD1 (some b) = introPg) ∧
    (b ≠ "" → s.pg.isSome = true →
      (includes (jsLower b) "pg" || includes (jsLower b) "postgres") = true →
      getSchemaV2 s introPg introD1 (some b) = introPg) ∧
    (b ≠ "" → s.pg.isSome = false → s.d1.isSome = true →
      getSchemaV1 s introPg introD1 (some b) = introD1 ∧
      getSchemaV2 s introPg introD1 (some b) = introD1) ∧
    (s.d1.isSome = true → getSchemaV1 s introPg introD1 none = introD1) ∧
    (s.d1.isSome = false → s.pg.isSome = true →
      getSchemaV1 s introPg introD1 none = introPg) ∧
    (s.pg.isSome = true → getSchemaV2 s introPg introD1 none = introPg) ∧
    (s.pg.isSome = false → s.d1.isSome = true →
      getSchemaV2 s introPg introD1 none = introD1) ∧
    (s.pg.isSome = false → s.d1.isSome = false →
      getSchemaV1 s introPg introD1 none = .error (noDatabaseError ν) ∧
      getSchemaV2 s introPg introD1 none = .error (noDatabaseError ν) ∧
      getSchemaV1 s introPg introD1 (some b) = .error (noDatabaseError ν) ∧
      getSchemaV2 s introPg introD1 (some b) = .error (noDatabaseError ν)) := by
  refine ⟨?_, ?_, ?_, ?_, ?_, ?_, ?_, ?_⟩
  · intro hb hpg hinc
    simp [getSchemaV1, hb, hpg, hinc]
  · intro hb hpg hinc
    simp [getSchemaV2, hb, hpg, hinc]
  · intro hb hpg hd1
    constructor <;> simp [getSchemaV1, getSchemaV2, hb, hpg, hd1]
  · intro hd1
    simp [getSchemaV1, hd1]
  · intro hd1 hpg
    simp [getSchemaV1, hd1, hpg]
  · intro hpg
    simp [getSchemaV2, hpg]
  · intro hpg hd1
    simp [getSchemaV2, hpg, hd1]
  · intro hpg hd1
    refine ⟨?_, ?_, ?_, ?_⟩ <;>
      simp [getSchemaV1, getSchemaV2, hpg, hd1]

/-- Witness for the amended C9: a `postgres` binding hint on a server with
    both engines selects Postgres introspection in both versions. -/
theorem getSchema_selection_witness :
    getSchemaV1 sBothOk (.ok pgSchemaInfo) (.ok d1SchemaInfo) (some "POSTGRES_DB") =
      .ok pgSchemaInfo ∧
    getSchemaV2 sBothOk (.ok pgSchemaInfo) (.ok d1SchemaInfo) (some "POSTGRES_DB") =
      .ok pgSchemaInfo :=
  ⟨(getSchema_selection sBothOk (.ok pgSchemaInfo) (.ok d1SchemaInfo) "POSTGRES_DB").1
      (by decide) rfl (by decide),
   (getSchema_selection sBothOk (.ok pgSchemaInfo) (.ok d1SchemaInfo) "POSTGRES_DB").2.1
      (by decide) rfl (by decide)⟩

end Aerostack
